import Mathlib

/-!
Shallow embedding of the message-routing core of a room-based chat relay
server: the outbound message builder (message_builder.rs), the command
pipeline (commands.rs) and the receive routing pipeline (recv_routing.rs).
External effects are made explicit parameters: the system clock and the
cipher RNG become arguments, channel liveness becomes a predicate, and the
inbound frame stream becomes a list of events. Serialization and encryption
are modelled symbolically as constructors, so that which stage of the
pipeline produced a given transport frame stays visible in the term.
-/

/-- Timestamps (marain_api Timestamp, built from chrono Utc instants) are
modelled as natural numbers. -/
abbrev Timestamp := Nat

/-- Response status carried by every ServerMsg. Modelled from the external
marain_api crate: this core only ever constructs the affirmative variant; a
second variant keeps the invariant about statuses non-trivial. -/
inductive Status where
  | yes
  | no
  deriving DecidableEq

/-- Wire chat message (marain_api ChatMsg). -/
structure ChatMsg where
  sender : String
  timestamp : Timestamp
  content : String
  deriving DecidableEq

/-- Wire notification (marain_api Notification). -/
structure Notification where
  sender : String
  timestamp : Timestamp
  content : String
  deriving DecidableEq

/-- Body variants of the outbound envelope (marain_api ServerMsgBody), as
used by this core. -/
inductive ServerMsgBody where
  | empty
  | loginSuccess (token : String) (publicKey : List Nat)
  | chatRecv (direct : Bool) (chatMsg : ChatMsg)
  | roomData (queryTs : Timestamp) (roomName : String)
      (logs : List ChatMsg) (notifications : List Notification)
      (occupants : List String)
  deriving DecidableEq

/-- Outbound envelope (marain_api ServerMsg). -/
structure ServerMsg where
  status : Status
  timestamp : Timestamp
  body : ServerMsgBody
  deriving DecidableEq

/-- Body variants of the inbound envelope (marain_api ClientMsgBody); the
variant `other` stands for every variant this core does not recognise. -/
inductive ClientMsgBody where
  | sendToRoom (contents : String)
  | getTime
  | other
  deriving DecidableEq

/-- Inbound envelope (marain_api ClientMsg): an optional token and a body. -/
structure ClientMsg where
  token : Option String
  body : ClientMsgBody
  deriving DecidableEq

/-- Connection user record (src/domain/user.rs, not under src/). Modelled
from the spec: identity with numeric id, display name and current room id;
the auth token and session key fields are not read by the embedded code. -/
structure User where
  id : Nat
  name : String
  room : Nat
  deriving DecidableEq

/-- Historical chat record (src/domain/chat_log.rs, not under src/).
Modelled from the spec: author, timestamp, contents. -/
structure MessageLog where
  username : String
  timestamp : Timestamp
  contents : String
  deriving DecidableEq

/-- Historical notification record (src/domain/notification_log.rs, not
under src/). Modelled from the spec: timestamp and contents. -/
structure NotificationLog where
  timestamp : Timestamp
  contents : String
  deriving DecidableEq

/-- A reply channel handle (an UnboundedSender of ServerMsg) is identified
by a numeric id; whether its receiving end is still alive is supplied as a
predicate wherever a send is modelled. -/
abbrev Chan := Nat

/-- Session metadata stored alongside each reply channel; opaque here. -/
abbrev Meta := Nat

/-- PeerMap: a room occupant table, mapping user id to (metadata, reply
channel), modelled as an association list with the key-uniqueness of the
source HashMap. -/
abbrev PeerMap := List (Nat × (Meta × Chan))

/-- Room state (src/domain/room.rs, not under src/). Modelled from the
spec: a name and an occupant table. -/
structure Room where
  name : String
  occupants : PeerMap
  deriving DecidableEq

/-- LockedRoomMap: the registry from room id to room. -/
abbrev RoomMap := List (Nat × Room)

/-- HashMap get on an association list. -/
def lookupAssoc {α : Type} (m : List (Nat × α)) (k : Nat) : Option α :=
  (m.find? (fun p => p.1 == k)).map Prod.snd

/-- Symbolic bytes: the output of bincode serialization and the output of
cbc encryption are kept as constructor applications, so each stage of the
outbound pipeline is distinguishable in the resulting frame. -/
inductive Bytes where
  | serialized (msg : ServerMsg)
  | cbcEncoded (key : List Nat) (plaintext : Bytes) (rng : Nat)
  deriving DecidableEq

/-- Transport frame (tungstenite Message) as produced by this core. -/
inductive WsMessage where
  | binary (payload : Bytes)
  deriving DecidableEq

/-- ServerMsgFactory build_login_success_server_msg; the Utc now call is
the explicit argument `now`. -/
def build_login_success_server_msg (token : String) (public_key : List Nat)
    (now : Timestamp) : ServerMsg :=
  { status := Status.yes
    timestamp := now
    body := ServerMsgBody.loginSuccess token public_key }

/-- ServerMsgFactory build_room_data; both Utc now calls in the source (the
envelope stamp and the query stamp) are the build instant `now`. -/
def build_room_data (chat_logs : List MessageLog)
    (notifications : List NotificationLog) (occupants : List String)
    (room : Room) (now : Timestamp) : ServerMsg :=
  { status := Status.yes
    timestamp := now
    body := ServerMsgBody.roomData now room.name
      (chat_logs.map (fun ml => { sender := ml.username, timestamp := ml.timestamp, content := ml.contents }))
      (notifications.map (fun nl => { sender := "SERVER", timestamp := nl.timestamp, content := nl.contents }))
      occupants }

/-- ServerMsgFactory build_msg_log_server_msg: stamps the envelope and the
embedded chat message from the record, not from the clock. -/
def build_msg_log_server_msg (msg : MessageLog) (user : User) : ServerMsg :=
  { status := Status.yes
    timestamp := msg.timestamp
    body := ServerMsgBody.chatRecv false
      { sender := user.name, timestamp := msg.timestamp, content := msg.contents } }

/-- ServerMsgFactory build_time_server_msg. -/
def build_time_server_msg (time : Timestamp) : ServerMsg :=
  { status := Status.yes, timestamp := time, body := ServerMsgBody.empty }

/-- SocketSendAdaptor serialized_server_msg: bincode serialization on the
success path, modelled symbolically. -/
def serialized_server_msg (s : ServerMsg) : Bytes :=
  Bytes.serialized s

/-- SocketSendAdaptor encrypt_message: cbc_encode with the session key and
a fresh RNG draw, on the success path, modelled symbolically. -/
def encrypt_message (key : List Nat) (ser : Bytes) (rng : Nat) : WsMessage :=
  WsMessage.binary (Bytes.cbcEncoded key ser rng)

/-- SocketSendAdaptor on_login_success: builds, serializes, and returns the
serialized bytes as a binary frame directly (the source performs no
encrypt_message call on this path). -/
def on_login_success (token : String) (public_key : List Nat)
    (now : Timestamp) : WsMessage :=
  WsMessage.binary (serialized_server_msg
    (build_login_success_server_msg token public_key now))

/-- SocketSendAdaptor prepare_send_msg_log: build, serialize, encrypt. -/
def prepare_send_msg_log (msg : MessageLog) (user : User) (key : List Nat)
    (rng : Nat) : WsMessage :=
  encrypt_message key (serialized_server_msg (build_msg_log_server_msg msg user)) rng

/-- SocketSendAdaptor prepare_send_time: build, serialize, encrypt. -/
def prepare_send_time (key : List Nat) (t : Timestamp) (rng : Nat) : WsMessage :=
  encrypt_message key (serialized_server_msg (build_time_server_msg t)) rng

/-- SocketSendAdaptor room_data_response: build, serialize, encrypt. -/
def room_data_response (key : List Nat) (chat_logs : List MessageLog)
    (notifications : List NotificationLog) (occupants : List String)
    (room : Room) (now : Timestamp) (rng : Nat) : WsMessage :=
  encrypt_message key
    (serialized_server_msg (build_room_data chat_logs notifications occupants room now)) rng

/-- True exactly when a transport frame carries cbc-encrypted bytes. -/
def isEncrypted : WsMessage → Bool
  | WsMessage.binary (Bytes.cbcEncoded _ _ _) => true
  | _ => false

/-- The command enum of commands.rs. -/
inductive Commands where
  | getTime
  deriving DecidableEq

/-- Observable outcome of processing one command in the command pipeline.
The two panic constructors record the unwrap on the channel lookup in
prepare_route_command and the expect on the send in route_command; the
logged constructor records the error log taken when the room lookup in
command_handler returns nothing. -/
inductive CmdOutcome where
  | sent (chan : Chan) (msg : ServerMsg)
  | panickedUnwrap
  | panickedSend
  | loggedNoRoom
  deriving DecidableEq

/-- route_command: for GetTime, sends one affirmative empty-body envelope
stamped with the clock on the resolved commander channel; if the receiving
end of that channel is gone, the expect in the source panics. -/
def route_command (cmd : Commands) (commander : Chan)
    (openCh : Chan → Bool) (now : Timestamp) : CmdOutcome :=
  match cmd with
  | Commands.getTime =>
    if openCh commander then
      CmdOutcome.sent commander
        { status := Status.yes, timestamp := now, body := ServerMsgBody.empty }
    else CmdOutcome.panickedSend

/-- prepare_route_command: scans the occupant table for the entry whose key
equals the invoking user id and unwraps the result; absence of a match hits
the unwrap and panics. The mutex-poisoning branch of the source is outside
this embedding. -/
def prepare_route_command (occupants : PeerMap) (user : User)
    (cmd : Commands) (openCh : Chan → Bool) (now : Timestamp) : CmdOutcome :=
  match occupants.findSome? (fun p => if p.1 = user.id then some p.2.2 else none) with
  | some commander => route_command cmd commander openCh now
  | none => CmdOutcome.panickedUnwrap

/-- One iteration of the command_handler loop for one dequeued command:
resolve the current room of the user in the registry, then delegate; a
missing room is logged and the command is dropped. -/
def command_handler_step (rooms : RoomMap) (user : User) (cmd : Commands)
    (openCh : Chan → Bool) (now : Timestamp) : CmdOutcome :=
  match lookupAssoc rooms user.room with
  | some rm => prepare_route_command rm.occupants user cmd openCh now
  | none => CmdOutcome.loggedNoRoom

/-- The messages a command outcome delivers on a given channel. -/
def sendsOn (o : CmdOutcome) (c : Chan) : List ServerMsg :=
  match o with
  | CmdOutcome.sent c2 m => if c2 = c then [m] else []
  | _ => []

/-- True exactly when the outcome is a panic of the pipeline task. -/
def isPanic : CmdOutcome → Bool
  | CmdOutcome.panickedUnwrap => true
  | CmdOutcome.panickedSend => true
  | _ => false

/-- The status of the envelope an outcome sent, if any. -/
def statusOfSent : CmdOutcome → Option Status
  | CmdOutcome.sent _ m => some m.status
  | _ => none

/-- Inbound frame shapes distinguished by recv_routing_handler: close
frames, text frames, and everything else (binary, ping, pong). -/
inductive Frame where
  | close
  | text (contents : String)
  | nonText
  deriving DecidableEq

/-- One item of the inbound frame stream: a frame, or a transport error. -/
inductive WsEvent where
  | ok (frame : Frame)
  | err
  deriving DecidableEq

/-- State the receive routing loop acts on: the registry, the two outbound
queues, and an instrumentation counter recording how many times the
remove_user teardown has been invoked. -/
structure RecvState where
  rooms : RoomMap
  chatQueue : List ClientMsg
  cmdQueue : List Commands
  removals : Nat
  deriving DecidableEq

/-- remove_user: look the current room of the user up in the registry
(falling back to a fresh default room when absent, so the registry is left
unchanged in that case) and erase the user id from its occupant table. -/
def remove_user (rooms : RoomMap) (user : User) : RoomMap :=
  rooms.map (fun p =>
    if p.1 = user.room then
      (p.1, { p.2 with occupants := p.2.occupants.filter (fun q => q.1 != user.id) })
    else p)

/-- One iteration of the recv_routing_handler for_each body, parameterised
by the serde_json decoder for ClientMsg (an external collaborator). A close
frame or a transport error invokes remove_user; a text frame is decoded and
classified: decode failure is logged and dropped, a tokened SendToRoom is
pushed to the chat queue, a tokened GetTime pushes a GetTime command to the
command queue, and every other combination is dropped silently. -/
def recv_step (decode : String → Option ClientMsg) (user : User)
    (st : RecvState) (ev : WsEvent) : RecvState :=
  match ev with
  | WsEvent.ok Frame.close =>
    { st with rooms := remove_user st.rooms user, removals := st.removals + 1 }
  | WsEvent.ok (Frame.text s) =>
    match decode s with
    | none => st
    | some cm =>
      match cm.token, cm.body with
      | some _, ClientMsgBody.sendToRoom _ =>
        { st with chatQueue := st.chatQueue ++ [cm] }
      | some _, ClientMsgBody.getTime =>
        { st with cmdQueue := st.cmdQueue ++ [Commands.getTime] }
      | _, _ => st
  | WsEvent.ok Frame.nonText => st
  | WsEvent.err =>
    { st with rooms := remove_user st.rooms user, removals := st.removals + 1 }

/-- recv_routing_handler: fold the loop body over the inbound stream. -/
def recv_routing_handler (decode : String → Option ClientMsg) (user : User)
    (st : RecvState) (events : List WsEvent) : RecvState :=
  events.foldl (recv_step decode user) st

/-- True exactly for the stream items whose branch calls remove_user. -/
def isTeardownEvent : WsEvent → Bool
  | WsEvent.ok Frame.close => true
  | WsEvent.err => true
  | _ => false

/-- C1 counterexample: the login-success helper does not return an
encrypted frame; at a concrete token, public key and clock instant, the
frame it returns carries raw serialized bytes, not cbc-encrypted bytes. -/
theorem C1_counterexample :
    on_login_success "tok" [1, 2] 0
      = WsMessage.binary (Bytes.serialized (build_login_success_server_msg "tok" [1, 2] 0))
    ∧ isEncrypted (on_login_success "tok" [1, 2] 0) = false := by
  constructor
  · rfl
  · decide

/-- C1 (amended): the chat-delivery, time-ack and room-snapshot composite
helpers each chain build, serialize, encrypt with the session key; the
login-success helper on_login_success chains only build and serialize and
returns the raw serialized bytes as the frame, unencrypted. -/
theorem C1_amended (key : List Nat) (rng now : Nat) (msg : MessageLog)
    (user : User) (t : Timestamp) (logs : List MessageLog)
    (notifs : List NotificationLog) (occs : List String) (room : Room)
    (token : String) (pk : List Nat) :
    prepare_send_msg_log msg user key rng
      = encrypt_message key (serialized_server_msg (build_msg_log_server_msg msg user)) rng
    ∧ prepare_send_time key t rng
      = encrypt_message key (serialized_server_msg (build_time_server_msg t)) rng
    ∧ room_data_response key logs notifs occs room now rng
      = encrypt_message key (serialized_server_msg (build_room_data logs notifs occs room now)) rng
    ∧ on_login_success token pk now
      = WsMessage.binary (serialized_server_msg (build_login_success_server_msg token pk now))
    ∧ isEncrypted (on_login_success token pk now) = false :=
  ⟨rfl, rfl, rfl, rfl, rfl⟩

/-- C2 counterexample: with the invoking user absent from the occupant
table of their own room, the command pipeline step panics (the unwrap on
the channel lookup fires), rather than producing an error result. -/
theorem C2_counterexample :
    command_handler_step [(1, { name := "lobby", occupants := [] })]
        { id := 7, name := "u", room := 1 } Commands.getTime (fun _ => true) 0
      = CmdOutcome.panickedUnwrap
    ∧ isPanic (command_handler_step [(1, { name := "lobby", occupants := [] })]
        { id := 7, name := "u", room := 1 } Commands.getTime (fun _ => true) 0)
      = true := by
  constructor
  · rfl
  · rfl

/-- C2 (amended): for every command, if the room of the invoking user
resolves but the user id is absent from the occupant table of that room,
the command pipeline step panics on the unwrap, crashing the pipeline task
instead of returning an error result. -/
theorem C2_amended (rooms : RoomMap) (user : User) (cmd : Commands)
    (openCh : Chan → Bool) (now : Timestamp) (rm : Room)
    (hroom : lookupAssoc rooms user.room = some rm)
    (habsent : rm.occupants.findSome?
        (fun p => if p.1 = user.id then some p.2.2 else none) = none) :
    command_handler_step rooms user cmd openCh now = CmdOutcome.panickedUnwrap := by
  have h1 : command_handler_step rooms user cmd openCh now
      = prepare_route_command rm.occupants user cmd openCh now := by
    unfold command_handler_step
    rw [hroom]
  rw [h1]
  unfold prepare_route_command
  rw [habsent]

/-- Witness for C2 (amended) at a concrete registry and user. -/
theorem C2_amended_witness :
    command_handler_step [(1, { name := "lobby", occupants := [] })]
        { id := 7, name := "u", room := 1 } Commands.getTime (fun _ => true) 0
      = CmdOutcome.panickedUnwrap :=
  C2_amended [(1, { name := "lobby", occupants := [] })]
    { id := 7, name := "u", room := 1 } Commands.getTime (fun _ => true) 0
    { name := "lobby", occupants := [] } rfl rfl

/-- C3 counterexample: at a concrete registry where the invoking user has a
resolved reply channel whose receiver is gone, the GetTime branch panics
via the expect on the send, terminating the owning task, rather than
producing a reported error value. -/
theorem C3_counterexample :
    command_handler_step [(1, { name := "lobby", occupants := [(7, (0, 42))] })]
        { id := 7, name := "u", room := 1 } Commands.getTime (fun _ => false) 5
      = CmdOutcome.panickedSend
    ∧ isPanic (command_handler_step [(1, { name := "lobby", occupants := [(7, (0, 42))] })]
        { id := 7, name := "u", room := 1 } Commands.getTime (fun _ => false) 5)
      = true := by
  constructor
  · rfl
  · rfl

/-- C3 (amended): for every GetTime command whose resolved reply channel is
closed, route_command panics via the expect on the failed send, terminating
the owning pipeline task; the delivery failure is not swallowed, but it is
a panic, not a reported error value. -/
theorem C3_amended (commander : Chan) (openCh : Chan → Bool) (now : Timestamp)
    (hclosed : openCh commander = false) :
    route_command Commands.getTime commander openCh now = CmdOutcome.panickedSend := by
  unfold route_command
  rw [hclosed]
  simp

/-- Witness for C3 (amended) at a concrete channel with a closed receiver. -/
theorem C3_amended_witness :
    route_command Commands.getTime 42 (fun _ => false) 5 = CmdOutcome.panickedSend :=
  C3_amended 42 (fun _ => false) 5 rfl

/-- C4: a decoded ClientMsg with a present token and GetTime body makes the
routing loop enqueue exactly a GetTime command, and the command pipeline
step for it, when the invoking user is present in the occupant table of
their own room with an open reply channel, delivers exactly one affirmative
empty-body envelope stamped with the server clock on that channel, and
nothing on any other channel. -/
theorem C4_confirmed (decode : String → Option ClientMsg) (s : String)
    (cm : ClientMsg) (tok : String) (st : RecvState) (rooms : RoomMap)
    (user : User) (rm : Room) (chan : Chan)
    (openCh : Chan → Bool) (now : Timestamp)
    (hdec : decode s = some cm) (htok : cm.token = some tok)
    (hbody : cm.body = ClientMsgBody.getTime)
    (hroom : lookupAssoc rooms user.room = some rm)
    (hfind : rm.occupants.findSome?
        (fun p => if p.1 = user.id then some p.2.2 else none) = some chan)
    (hopen : openCh chan = true) :
    recv_step decode user st (WsEvent.ok (Frame.text s))
      = { st with cmdQueue := st.cmdQueue ++ [Commands.getTime] }
    ∧ sendsOn (command_handler_step rooms user Commands.getTime openCh now) chan
      = [{ status := Status.yes, timestamp := now, body := ServerMsgBody.empty }]
    ∧ ∀ c : Chan, c ≠ chan →
        sendsOn (command_handler_step rooms user Commands.getTime openCh now) c = [] := by
  obtain ⟨cmtok, cmbody⟩ := cm
  simp only at htok hbody
  subst htok
  subst hbody
  refine ⟨?_, ?_, ?_⟩
  · simp [recv_step, hdec]
  · simp [command_handler_step, hroom, prepare_route_command, hfind,
      route_command, hopen, sendsOn]
  · intro c hc
    simp [command_handler_step, hroom, prepare_route_command, hfind,
      route_command, hopen, sendsOn]
    intro h
    exact absurd h.symm hc

/-- Witness for C4 at a concrete stream item, registry and user; channel 43
stands for any channel other than the resolved channel 42. -/
theorem C4_confirmed_witness :
    recv_step (fun _ => some { token := some "t", body := ClientMsgBody.getTime })
        { id := 7, name := "u", room := 1 }
        { rooms := [], chatQueue := [], cmdQueue := [], removals := 0 }
        (WsEvent.ok (Frame.text "x"))
      = { rooms := [], chatQueue := [], cmdQueue := [Commands.getTime], removals := 0 }
    ∧ sendsOn (command_handler_step [(1, { name := "lobby", occupants := [(7, (0, 42))] })]
        { id := 7, name := "u", room := 1 } Commands.getTime (fun _ => true) 5) 42
      = [{ status := Status.yes, timestamp := 5, body := ServerMsgBody.empty }]
    ∧ sendsOn (command_handler_step [(1, { name := "lobby", occupants := [(7, (0, 42))] })]
        { id := 7, name := "u", room := 1 } Commands.getTime (fun _ => true) 5) 43
      = [] := by
  have h := C4_confirmed
    (fun _ => some { token := some "t", body := ClientMsgBody.getTime }) "x"
    { token := some "t", body := ClientMsgBody.getTime } "t"
    { rooms := [], chatQueue := [], cmdQueue := [], removals := 0 }
    [(1, { name := "lobby", occupants := [(7, (0, 42))] })]
    { id := 7, name := "u", room := 1 }
    { name := "lobby", occupants := [(7, (0, 42))] } 42 (fun _ => true) 5
    rfl rfl rfl rfl rfl rfl
  exact ⟨h.1, h.2.1, h.2.2 43 (by decide)⟩

/-- C5 counterexample: on a frame stream carrying both a close frame and a
transport error, the teardown remove_user runs twice over the lifetime of
the connection, not exactly once. -/
theorem C5_counterexample :
    (recv_routing_handler (fun _ => none) { id := 7, name := "u", room := 1 }
        { rooms := [(1, { name := "lobby", occupants := [(7, (0, 42))] })],
          chatQueue := [], cmdQueue := [], removals := 0 }
        [WsEvent.ok Frame.close, WsEvent.err]).removals = 2
    ∧ ¬ (recv_routing_handler (fun _ => none) { id := 7, name := "u", room := 1 }
        { rooms := [(1, { name := "lobby", occupants := [(7, (0, 42))] })],
          chatQueue := [], cmdQueue := [], removals := 0 }
        [WsEvent.ok Frame.close, WsEvent.err]).removals = 1 := by
  constructor
  · rfl
  · decide

/-- C5 (amended): the teardown remove_user runs once per close-or-error
stream item: over any stream, the number of teardown invocations equals the
number of close frames plus transport errors, so a stream carrying both a
close frame and an error runs it twice (each run beyond the first being a
no-op by idempotence of removal). -/
theorem C5_amended (decode : String → Option ClientMsg) (user : User)
    (st : RecvState) (events : List WsEvent) :
    (recv_routing_handler decode user st events).removals
      = st.removals + events.countP isTeardownEvent := by
  induction events generalizing st with
  | nil => simp [recv_routing_handler, List.countP_nil]
  | cons e rest ih =>
    have hstep : recv_routing_handler decode user st (e :: rest)
        = recv_routing_handler decode user (recv_step decode user st e) rest := rfl
    rw [hstep, ih]
    cases e with
    | err =>
      simp [recv_step, List.countP_cons, isTeardownEvent]
      omega
    | ok f =>
      cases f with
      | close =>
        simp [recv_step, List.countP_cons, isTeardownEvent]
        omega
      | nonText =>
        simp [recv_step, List.countP_cons, isTeardownEvent]
      | text s =>
        have hteardown : isTeardownEvent (WsEvent.ok (Frame.text s)) = false := rfl
        have hrem : (recv_step decode user st (WsEvent.ok (Frame.text s))).removals
            = st.removals := by
          simp only [recv_step]
          cases hdec : decode s with
          | none => rfl
          | some cm =>
            obtain ⟨cmtok, cmbody⟩ := cm
            cases cmtok <;> cases cmbody <;> rfl
        rw [List.countP_cons, hteardown, hrem]
        simp

/-- C6: a successfully decoded ClientMsg whose token is absent, whatever
its body variant, leaves both the chat queue and the command queue (and the
whole loop state) unchanged: a silent drop. -/
theorem C6_confirmed (decode : String → Option ClientMsg) (user : User)
    (st : RecvState) (s : String) (cm : ClientMsg)
    (hdec : decode s = some cm) (htok : cm.token = none) :
    (recv_step decode user st (WsEvent.ok (Frame.text s))).chatQueue = st.chatQueue
    ∧ (recv_step decode user st (WsEvent.ok (Frame.text s))).cmdQueue = st.cmdQueue
    ∧ recv_step decode user st (WsEvent.ok (Frame.text s)) = st := by
  obtain ⟨cmtok, cmbody⟩ := cm
  simp only at htok
  subst htok
  have hstep : recv_step decode user st (WsEvent.ok (Frame.text s)) = st := by
    cases cmbody <;> simp [recv_step, hdec]
  exact ⟨by rw [hstep], by rw [hstep], hstep⟩

/-- Witness for C6 at a concrete tokenless chat message. -/
theorem C6_confirmed_witness :
    (recv_step (fun _ => some { token := none, body := ClientMsgBody.sendToRoom "hi" })
        { id := 7, name := "u", room := 1 }
        { rooms := [], chatQueue := [], cmdQueue := [], removals := 0 }
        (WsEvent.ok (Frame.text "x"))).chatQueue = []
    ∧ (recv_step (fun _ => some { token := none, body := ClientMsgBody.sendToRoom "hi" })
        { id := 7, name := "u", room := 1 }
        { rooms := [], chatQueue := [], cmdQueue := [], removals := 0 }
        (WsEvent.ok (Frame.text "x"))).cmdQueue = []
    ∧ recv_step (fun _ => some { token := none, body := ClientMsgBody.sendToRoom "hi" })
        { id := 7, name := "u", room := 1 }
        { rooms := [], chatQueue := [], cmdQueue := [], removals := 0 }
        (WsEvent.ok (Frame.text "x"))
      = { rooms := [], chatQueue := [], cmdQueue := [], removals := 0 } :=
  C6_confirmed (fun _ => some { token := none, body := ClientMsgBody.sendToRoom "hi" })
    { id := 7, name := "u", room := 1 }
    { rooms := [], chatQueue := [], cmdQueue := [], removals := 0 } "x"
    { token := none, body := ClientMsgBody.sendToRoom "hi" } rfl rfl

/-- C7: a text frame whose contents fail to decode leaves the loop state
entirely unchanged (nothing queued, no occupant removal), and the loop goes
on processing the rest of the stream as if the frame had not occurred. -/
theorem C7_confirmed (decode : String → Option ClientMsg) (user : User)
    (st : RecvState) (s : String) (rest : List WsEvent)
    (hdec : decode s = none) :
    recv_step decode user st (WsEvent.ok (Frame.text s)) = st
    ∧ recv_routing_handler decode user st (WsEvent.ok (Frame.text s) :: rest)
      = recv_routing_handler decode user st rest := by
  have hstep : recv_step decode user st (WsEvent.ok (Frame.text s)) = st := by
    simp [recv_step, hdec]
  refine ⟨hstep, ?_⟩
  show recv_routing_handler decode user
    (recv_step decode user st (WsEvent.ok (Frame.text s))) rest
    = recv_routing_handler decode user st rest
  rw [hstep]

/-- Witness for C7 at a concrete undecodable frame followed by a close. -/
theorem C7_confirmed_witness :
    recv_step (fun _ => none) { id := 7, name := "u", room := 1 }
        { rooms := [], chatQueue := [], cmdQueue := [], removals := 0 }
        (WsEvent.ok (Frame.text "garbage"))
      = { rooms := [], chatQueue := [], cmdQueue := [], removals := 0 }
    ∧ recv_routing_handler (fun _ => none) { id := 7, name := "u", room := 1 }
        { rooms := [], chatQueue := [], cmdQueue := [], removals := 0 }
        [WsEvent.ok (Frame.text "garbage"), WsEvent.ok Frame.close]
      = recv_routing_handler (fun _ => none) { id := 7, name := "u", room := 1 }
        { rooms := [], chatQueue := [], cmdQueue := [], removals := 0 }
        [WsEvent.ok Frame.close] :=
  C7_confirmed (fun _ => none) { id := 7, name := "u", room := 1 }
    { rooms := [], chatQueue := [], cmdQueue := [], removals := 0 } "garbage"
    [WsEvent.ok Frame.close] rfl

/-- A map whose function fixes every element of the list is the identity. -/
lemma mapSelf {α : Type} (l : List α) (f : α → α)
    (h : ∀ a ∈ l, f a = a) : l.map f = l := by
  induction l with
  | nil => rfl
  | cons x xs ih =>
    have hx := h x (List.mem_cons_self x xs)
    have hxs := ih (fun a ha => h a (List.mem_cons_of_mem x ha))
    rw [List.map_cons, hx, hxs]

/-- Erasing a user id from an occupant table twice equals erasing once. -/
lemma removeOcc_idem (l : PeerMap) (uid : Nat) :
    (l.filter (fun q => q.1 != uid)).filter (fun q => q.1 != uid)
      = l.filter (fun q => q.1 != uid) := by
  apply List.filter_eq_self.mpr
  intro a ha
  exact (List.mem_filter.mp ha).2

/-- C8: occupant removal is idempotent, and it is a no-op both when the
room of the user is absent from the registry and when the user id is absent
from the occupant table of every entry carrying their room id; in the
embedding it is a total function, so it never errors. -/
theorem C8_confirmed (rooms : RoomMap) (user : User) :
    remove_user (remove_user rooms user) user = remove_user rooms user
    ∧ (lookupAssoc rooms user.room = none → remove_user rooms user = rooms)
    ∧ ((∀ p ∈ rooms, p.1 = user.room →
          p.2.occupants.find? (fun q => q.1 == user.id) = none) →
        remove_user rooms user = rooms) := by
  refine ⟨?_, ?_, ?_⟩
  · unfold remove_user
    apply mapSelf
    intro a ha
    obtain ⟨p, _, rfl⟩ := List.mem_map.mp ha
    by_cases h : p.1 = user.room
    · simp [h, removeOcc_idem]
    · simp [h]
  · intro hnone
    have hfind : rooms.find? (fun p => p.1 == user.room) = none := by
      unfold lookupAssoc at hnone
      cases hf : rooms.find? (fun p => p.1 == user.room) with
      | none => rfl
      | some v => rw [hf] at hnone; simp at hnone
    have hall := List.find?_eq_none.mp hfind
    unfold remove_user
    apply mapSelf
    intro p hp
    have hne : ¬ p.1 = user.room := by simpa using hall p hp
    simp [hne]
  · intro habs
    unfold remove_user
    apply mapSelf
    intro p hp
    obtain ⟨p1, nm, occ⟩ := p
    by_cases h : p1 = user.room
    · have hallq := List.find?_eq_none.mp (habs (p1, Room.mk nm occ) hp h)
      have hfilter : occ.filter (fun q => q.1 != user.id) = occ := by
        apply List.filter_eq_self.mpr
        intro q hq
        simpa using hallq q hq
      simp [h, hfilter]
    · simp [h]

/-- Witness for C8 at a concrete registry in which the user occupies a room
id absent from the registry, so both no-op hypotheses hold. -/
theorem C8_confirmed_witness :
    remove_user (remove_user [(2, { name := "a", occupants := [(5, (0, 9))] })]
        { id := 7, name := "u", room := 1 }) { id := 7, name := "u", room := 1 }
      = remove_user [(2, { name := "a", occupants := [(5, (0, 9))] })]
        { id := 7, name := "u", room := 1 }
    ∧ remove_user [(2, { name := "a", occupants := [(5, (0, 9))] })]
        { id := 7, name := "u", room := 1 }
      = [(2, { name := "a", occupants := [(5, (0, 9))] })]
    ∧ remove_user [(2, { name := "a", occupants := [(5, (0, 9))] })]
        { id := 7, name := "u", room := 1 }
      = [(2, { name := "a", occupants := [(5, (0, 9))] })] := by
  have h := C8_confirmed [(2, { name := "a", occupants := [(5, (0, 9))] })]
    { id := 7, name := "u", room := 1 }
  exact ⟨h.1, h.2.1 (by decide), h.2.2 (by decide)⟩

/-- C9: every ServerMsg this core constructs carries the affirmative
status: all four factory builders stamp it, and the only envelope the
command pipeline ever sends carries it as well. -/
theorem C9_confirmed (token : String) (pk : List Nat) (now : Timestamp)
    (logs : List MessageLog) (notifs : List NotificationLog)
    (occs : List String) (room : Room) (msg : MessageLog) (user : User)
    (t : Timestamp) (cmd : Commands) (chan : Chan) (openCh : Chan → Bool) :
    (build_login_success_server_msg token pk now).status = Status.yes
    ∧ (build_room_data logs notifs occs room now).status = Status.yes
    ∧ (build_msg_log_server_msg msg user).status = Status.yes
    ∧ (build_time_server_msg t).status = Status.yes
    ∧ (statusOfSent (route_command cmd chan openCh now) = none
       ∨ statusOfSent (route_command cmd chan openCh now) = some Status.yes) := by
  refine ⟨rfl, rfl, rfl, rfl, ?_⟩
  cases cmd with
  | getTime =>
    cases h : openCh chan with
    | true =>
      right
      simp [route_command, h, statusOfSent]
    | false =>
      left
      simp [route_command, h, statusOfSent]

/-- C10: the chat-delivery builder stamps the envelope with the timestamp
of the message log record, and embeds the same timestamp in the carried
chat message, while the login-success, time-ack and room-snapshot builders
stamp the envelope with the instant supplied at build time. -/
theorem C10_confirmed (msg : MessageLog) (user : User) (token : String)
    (pk : List Nat) (now : Timestamp) (t : Timestamp)
    (logs : List MessageLog) (notifs : List NotificationLog)
    (occs : List String) (room : Room) :
    (build_msg_log_server_msg msg user).timestamp = msg.timestamp
    ∧ (build_msg_log_server_msg msg user).body
      = ServerMsgBody.chatRecv false
          { sender := user.name, timestamp := msg.timestamp, content := msg.contents }
    ∧ (build_login_success_server_msg token pk now).timestamp = now
    ∧ (build_time_server_msg t).timestamp = t
    ∧ (build_room_data logs notifs occs room now).timestamp = now :=
  ⟨rfl, rfl, rfl, rfl, rfl⟩
